import Mathlib

/-!
# Verification of the supabase-chatbot specification against its code

This file gives a shallow embedding of the repository's frontend code
(the Next.js chat client, the streaming/config proxy routes and the
configuration panel) together with a model of the backend pipeline.
The backend (FastAPI) source is not part of the visible repository
snapshot, so the pipeline components (Intent Interpreter, Query
Validator, Store Client, Response Composer, Event Emitter) are modelled
from the specification; every such definition is marked
`Modelled from the spec:` in its doc comment.  All other definitions are
translated directly from the TypeScript sources.
-/

namespace SupabaseChatbot

/-! ## Data model (spec section 3) -/

/-- Per-request credential bundle: `{storeUrl, storeKey, modelKey}`. -/
structure CredentialContext where
  storeUrl : String
  storeKey : String
  modelKey : String
deriving DecidableEq

/-- A column of a table in the schema snapshot: `{name, type}`. -/
structure Column where
  name : String
  ty : String
deriving DecidableEq

/-- One entity of the schema snapshot: `{entityName, columns}`. -/
structure TableInfo where
  entityName : String
  columns : List Column
deriving DecidableEq

/-- Ordered list of entities, as fetched from the Store Client. -/
abbrev SchemaSnapshot := List TableInfo

/-- A single query filter `{column, operator, value}`. -/
structure QueryFilter where
  column : String
  op : String
  value : String
deriving DecidableEq

/-- Structured query description produced by the Intent Interpreter. -/
structure QueryIntent where
  operation : String
  entity : String
  filters : List QueryFilter
  projection : Option (List String)
  limit : Option Nat
deriving DecidableEq

/-- A row record: string key to scalar-or-null. -/
abbrev Row := List (String × Option String)

/-- Result of executing a plan: `{rows, rowCount, truncated}`. -/
structure QueryResult where
  rows : List Row
  rowCount : Nat
  truncated : Bool
deriving DecidableEq

/-- The wire contract: tagged stream events (spec section 6). -/
inductive StreamEvent
  | status (message : String)
  | response_chunk (content : String)
  | response (message : String) (queryResult : Option QueryResult)
  | final (queryResult : QueryResult)
  | error (message : String) (code : String)
  | done
deriving DecidableEq

/-! ## Query Validator / Planner (spec section 4.2) -/

/-- Validation failure taxonomy of the Validator. -/
inductive ValidationErrorKind
  | UnsupportedOperation
  | UnknownEntity
  | UnknownColumn
  | UnsupportedFilter
deriving DecidableEq

/-- The fixed operation allow-list. -/
def allowedOperations : List String :=
  ["list_entities", "select", "count", "aggregate"]

/-- Filter operators the Store Client supports
(equality, comparison, pattern match). -/
def supportedFilterOperators : List String :=
  ["eq", "neq", "lt", "lte", "gt", "gte", "like", "ilike"]

/-- Default result cap applied when the intent specifies no limit. -/
def defaultRowCap : Nat := 100

/-- Fully concrete, store-addressable request. -/
structure ExecutablePlan where
  operation : String
  entity : String
  filters : List QueryFilter
  projection : Option (List String)
  limit : Nat
deriving DecidableEq

/-- Modelled from the spec: the Query Validator / Planner
(`validate(intent, schema) -> ExecutablePlan | ValidationError`,
spec section 4.2); the backend source is absent from the snapshot.
Rejects operations outside the allow-list as `UnsupportedOperation`,
unknown entities/columns, and unsupported filter operators, and applies
the default row cap when no limit is given. -/
def validate (intent : QueryIntent) (schema : SchemaSnapshot) :
    Except ValidationErrorKind ExecutablePlan :=
  if intent.operation ∈ allowedOperations then
    if intent.operation = "list_entities" then
      .ok { operation := intent.operation, entity := intent.entity,
            filters := [], projection := none, limit := defaultRowCap }
    else
      match schema.find? (fun t => t.entityName = intent.entity) with
      | none => .error .UnknownEntity
      | some t =>
        if intent.filters.all (fun f => t.columns.any (fun c => c.name = f.column)) then
          if intent.filters.all (fun f => f.op ∈ supportedFilterOperators) then
            .ok { operation := intent.operation, entity := intent.entity,
                  filters := intent.filters, projection := intent.projection,
                  limit := intent.limit.getD defaultRowCap }
          else .error .UnsupportedFilter
        else .error .UnknownColumn
  else .error .UnsupportedOperation

/-! ## Response Composer (spec section 4.4) -/

/-- Outcome of the composing model call: either a complete lazy sequence
of fragments, or a failure after some fragments were already produced. -/
inductive ComposeOutcome
  | ok (chunks : List String)
  | failAfter (chunks : List String) (message : String)
deriving DecidableEq

/-- Modelled from the spec: the Response Composer
(`compose(message, intent, result, modelKey)`, spec section 4.4); the
backend source is absent from the snapshot.  The degenerate case
`rowCount == 0` yields the composed explanation "No rows found." rather
than an error; otherwise the model oracle's fragments are passed on. -/
def compose (_message : String) (_intent : QueryIntent) (result : QueryResult)
    (oracle : ComposeOutcome) : ComposeOutcome :=
  if result.rowCount = 0 then .ok ["No rows found."] else oracle

/-- The full explanation text carried by a compose outcome. -/
def explanationText : ComposeOutcome → String
  | .ok cs => String.join cs
  | .failAfter cs _ => String.join cs

/-! ## Event Emitter / pipeline (spec sections 4.5, 5, 7) -/

/-- Outcomes of the external calls a single request makes; the pipeline
is deterministic once these are fixed. -/
structure Oracles where
  fetchSchema : Except String SchemaSnapshot
  interpret : SchemaSnapshot → Except String QueryIntent
  execute : ExecutablePlan → Except String QueryResult
  composeChunks : QueryResult → ComposeOutcome

/-- One run of the pipeline: the emitted event sequence together with
how many store calls (schema fetch / plan execution) and model calls
were issued. -/
structure PipelineRun where
  events : List StreamEvent
  schemaFetches : Nat
  executeCalls : Nat
  modelCalls : Nat
deriving DecidableEq

/-- Modelled from the spec: credential-shape check
("invalid shape → rejected before any external call", spec section 3;
"CredentialError (missing/malformed config)", spec section 7). -/
def credentialsValid (ctx : CredentialContext) : Bool :=
  ctx.storeUrl ≠ "" && ctx.storeKey ≠ "" && ctx.modelKey ≠ ""

/-- Modelled from the spec: the short-circuit result of a
`list_entities` intent, answered directly from the schema snapshot
(spec sections 4.1, 4.5). -/
def schemaToResult (schema : SchemaSnapshot) : QueryResult :=
  { rows := schema.map (fun t => [("table_name", some t.entityName)]),
    rowCount := schema.length,
    truncated := false }

/-- Events of the streaming phase: one `response_chunk` per fragment,
then `final` and `done` on completion, or a single `error` if the
composer failed after partial output. -/
def streamTail (result : QueryResult) : ComposeOutcome → List StreamEvent
  | .ok cs => cs.map .response_chunk ++ [.final result, .done]
  | .failAfter cs m => cs.map .response_chunk ++ [.error m "ComposerError"]

/-- Modelled from the spec: the Event Emitter state machine driving the
pipeline (spec section 4.5); the backend source is absent from the
snapshot.  `idle → interpreting` emits a status, `interpreting →
executing` emits a status, `list_entities` short-circuits the store
round-trip, the streaming phase emits `response_chunk` events and ends
with `final` then `done`, and any component failure emits exactly one
`error` event and terminates the channel. -/
def runPipeline (ctx : CredentialContext) (message : String) (o : Oracles) :
    PipelineRun :=
  if credentialsValid ctx then
    let intro := [StreamEvent.status "Interpreting your question"]
    match o.fetchSchema with
    | .error e =>
      { events := intro ++ [.error e "StoreError"],
        schemaFetches := 1, executeCalls := 0, modelCalls := 0 }
    | .ok schema =>
      match o.interpret schema with
      | .error e =>
        { events := intro ++ [.error e "IntentParseError"],
          schemaFetches := 1, executeCalls := 0, modelCalls := 1 }
      | .ok intent =>
        match validate intent schema with
        | .error _ =>
          { events := intro ++ [.error "Unsupported or invalid query" "ValidationError"],
            schemaFetches := 1, executeCalls := 0, modelCalls := 1 }
        | .ok plan =>
          let working := intro ++ [StreamEvent.status "Querying database"]
          if intent.operation = "list_entities" then
            let result := schemaToResult schema
            { events := working ++
                streamTail result (compose message intent result (o.composeChunks result)),
              schemaFetches := 1, executeCalls := 0, modelCalls := 2 }
          else
            match o.execute plan with
            | .error e =>
              { events := working ++ [.error e "StoreError"],
                schemaFetches := 1, executeCalls := 1, modelCalls := 1 }
            | .ok result =>
              { events := working ++
                  streamTail result (compose message intent result (o.composeChunks result)),
                schemaFetches := 1, executeCalls := 1, modelCalls := 2 }
  else
    { events := [.error "Missing or malformed credentials" "CredentialError"],
      schemaFetches := 0, executeCalls := 0, modelCalls := 0 }

/-! ## Event classifiers -/

/-- Is this a `final` event? -/
def isFinalEv : StreamEvent → Bool
  | .final _ => true
  | _ => false

/-- Is this a `done` event? -/
def isDoneEv : StreamEvent → Bool
  | .done => true
  | _ => false

/-- Is this an `error` event? -/
def isErrorEv : StreamEvent → Bool
  | .error _ _ => true
  | _ => false

/-- Is this a `response_chunk` event? -/
def isChunkEv : StreamEvent → Bool
  | .response_chunk _ => true
  | _ => false

/-- Terminal events close the channel (`done` or `error`). -/
def isTerminalEv (e : StreamEvent) : Bool := isDoneEv e || isErrorEv e

/-! ## Chat client: stream consumption
(from `handleSendMessage` in the chat component) -/

/-- The mutable fields of the bot message the client updates while
consuming the stream (`content`, `queryResult`, `isTyping`). -/
structure ClientMsgState where
  content : String
  queryResult : Option QueryResult
  isTyping : Bool
deriving DecidableEq

/-- Client-side state of one streaming request: the `accumulatedContent`
variable, the bot message being updated, and the current status line. -/
structure ClientState where
  accumulated : String
  msg : ClientMsgState
  currentStatus : String
deriving DecidableEq

/-- The content the client displays on an `error` event:
`data.message || data.error || "An error occurred"`. -/
def errorDisplay (message err : String) : String :=
  if message ≠ "" then message
  else if err ≠ "" then err
  else "An error occurred"

/-- One step of the client's event handler inside the streaming loop of
`handleSendMessage`: `status` resets the content and shows the typing
indicator, `response_chunk` appends to the accumulated content and
displays it, `response` replaces message and result, `final` stores the
query result, `error` replaces the content with the error display, and
`done` stops the typing indicator. -/
def applyEvent (s : ClientState) : StreamEvent → ClientState
  | .status m =>
    { s with currentStatus := m, msg := { s.msg with content := "", isTyping := true } }
  | .response_chunk c =>
    let acc := s.accumulated ++ c
    { s with accumulated := acc, msg := { s.msg with content := acc, isTyping := false } }
  | .response m qr =>
    { s with msg := { content := m, queryResult := qr, isTyping := false } }
  | .final qr =>
    { s with msg := { s.msg with queryResult := some qr, isTyping := false } }
  | .error m code =>
    { s with msg := { s.msg with content := errorDisplay m code, isTyping := false } }
  | .done =>
    { s with msg := { s.msg with isTyping := false } }

/-- Events on which the client's for-loop over parsed lines breaks
(`error` and `done`). -/
def isBreakEv : StreamEvent → Bool
  | .error _ _ => true
  | .done => true
  | _ => false

/-- The client's loop over the parsed events of one network chunk:
apply each handler in order, stopping after an `error` or `done`. -/
def processLines (s : ClientState) : List StreamEvent → ClientState
  | [] => s
  | e :: rest =>
    if isBreakEv e then applyEvent s e else processLines (applyEvent s e) rest

/-- The client state at the start of a streaming request: empty
accumulated content, an empty typing bot message, and the initial
"Connecting to database..." status. -/
def clientStart : ClientState :=
  { accumulated := "",
    msg := { content := "", queryResult := none, isTyping := true },
    currentStatus := "Connecting to database..." }

/-- Concatenation of chunk contents in arrival order. -/
def concatAll : List String → String
  | [] => ""
  | c :: rest => c ++ concatAll rest

/-! ## Chat client: input sanitization
(from `sanitizeInput` and `handleSendMessage`) -/

/-- The character class removed by `sanitizeInput`'s
`replace(/[<>\x7b\x7d]/g, '')`: angle brackets and curly braces. -/
def bannedChar (c : Char) : Bool :=
  c = '<' || c = '>' || c = Char.ofNat 123 || c = Char.ofNat 125

/-- JavaScript's `String.prototype.trim` on a character list: drop
leading and trailing whitespace. -/
def jsTrim (l : List Char) : List Char :=
  ((l.dropWhile Char.isWhitespace).reverse.dropWhile Char.isWhitespace).reverse

/-- `sanitizeInput` from the chat component: remove the banned
characters, `slice(0, 500)`, then `trim()`. -/
def sanitizeInput (l : List Char) : List Char :=
  jsTrim ((l.filter (fun c => !bannedChar c)).take 500)

/-- The message `handleSendMessage` posts to `/api/chat/stream`:
nothing while a message is already loading or the trimmed input is
empty, nothing if the sanitized input is empty, otherwise the sanitized
input. -/
def sentMessage (isLoading : Bool) (input : List Char) : Option (List Char) :=
  if jsTrim input = [] ∨ isLoading = true then none
  else if sanitizeInput input = [] then none
  else some (sanitizeInput input)

/-- The claim's description of the sanitized message: the input with
all occurrences of `<`, `>`, `\x7b`, `\x7d` removed, truncated to at
most 500 characters, then whitespace-trimmed. -/
def claimSanitize (input : List Char) : List Char :=
  jsTrim ((input.filter (fun c =>
    ¬(c = '<' ∨ c = '>' ∨ c = Char.ofNat 123 ∨ c = Char.ofNat 125))).take 500)

/-! ## Configuration panel (from `validateConfig` / `handleSave`) -/

/-- The configuration entered in the panel. -/
structure Config where
  supabaseUrl : String
  supabaseKey : String
  openaiKey : String
deriving DecidableEq

/-- Does the first list lead the second (computable head-matching)? -/
def leadChars : List Char → List Char → Bool
  | [], _ => true
  | _ :: _, [] => false
  | p :: ps, c :: cs => p = c && leadChars ps cs

/-- JavaScript's `String.prototype.startsWith(pre)` on `s`. -/
def strStartsWith (s pre : String) : Bool := leadChars pre.toList s.toList

/-- The error list built by `validateConfig`. -/
def validateErrors (c : Config) : List String :=
  (if c.supabaseUrl.trim = "" then ["Supabase URL is required"]
   else if !strStartsWith c.supabaseUrl "https://" then
     ["Supabase URL must start with https://"]
   else []) ++
  (if c.supabaseKey.trim = "" then ["Supabase API Key is required"] else []) ++
  (if c.openaiKey.trim = "" then ["OpenAI API Key is required"]
   else if !strStartsWith c.openaiKey "sk-" then
     ["OpenAI API Key must start with sk-"]
   else [])

/-- `validateConfig` returns whether the error list is empty. -/
def validateConfig (c : Config) : Bool := (validateErrors c).isEmpty

/-- `handleSave` invokes `onConfigSave` only when validation passes. -/
def handleSave (c : Config) : Option Config :=
  if validateConfig c then some c else none

/-! ## Streaming proxy route (from `app/api/chat/stream/route.ts`) -/

/-- The parsed JSON body of a chat request, treated as an opaque value:
`JSON.stringify` after `request.json()` round-trips it unchanged at the
value level. -/
structure JsonBody where
  value : String
deriving DecidableEq

/-- Result of an awaited `fetch` (or `response.json()`): either the
promise rejected, or it returned a value. -/
inductive FetchResult (α : Type)
  | threw (e : String)
  | returned (r : α)
deriving DecidableEq

/-- The backend's reply to the forwarded streaming request. -/
structure BackendStreamResponse where
  ok : Bool
  status : Nat
  errDetail : Option String
  errField : Option String
  body : Option (List String)
deriving DecidableEq

/-- What the proxy route returns to its caller. -/
inductive RouteResult
  | jsonError (message : String) (status : Nat)
  | stream (chunks : List String) (contentType : String)
      (cacheControl : String) (connection : String)
deriving DecidableEq

/-- One run of a proxy route: the body forwarded to the backend (if
any) and the response returned to the caller. -/
structure ProxyRun where
  forwarded : Option JsonBody
  result : RouteResult
deriving DecidableEq

/-- `option || fallback` over possibly-absent strings, with JavaScript
truthiness (empty string is falsy). -/
def truthyOr (o : Option String) (d : String) : String :=
  match o with
  | some s => if s = "" then d else s
  | none => d

/-- `errorData.detail || errorData.error || 'Backend error'`. -/
def backendErrorMessage (r : BackendStreamResponse) : String :=
  truthyOr r.errDetail (truthyOr r.errField "Backend error")

/-- The `POST` handler of `app/api/chat/stream/route.ts`: parse the
incoming JSON body, forward it to `BACKEND_URL/api/chat/stream`; on a
non-OK reply return the backend's error with its status; on an OK reply
with a body, pass the body stream through with content-type
`text/event-stream`; any thrown error becomes a 500 JSON error. -/
def chatStreamPOST (parsed : Except String JsonBody)
    (backend : JsonBody → FetchResult BackendStreamResponse) : ProxyRun :=
  match parsed with
  | .error _ =>
    { forwarded := none,
      result := .jsonError "Failed to process streaming request" 500 }
  | .ok v =>
    match backend v with
    | .threw _ =>
      { forwarded := some v,
        result := .jsonError "Failed to process streaming request" 500 }
    | .returned r =>
      if r.ok then
        match r.body with
        | some bs =>
          { forwarded := some v,
            result := .stream bs "text/event-stream" "no-cache" "keep-alive" }
        | none =>
          { forwarded := some v, result := .jsonError "No response body" 500 }
      else
        { forwarded := some v,
          result := .jsonError (backendErrorMessage r) r.status }

/-- The chunk list of a stream result, if the route streamed. -/
def streamChunks : RouteResult → Option (List String)
  | .stream bs _ _ _ => some bs
  | _ => none

/-- The content-type of a stream result, if the route streamed. -/
def streamContentType : RouteResult → Option String
  | .stream _ ct _ _ => some ct
  | _ => none

/-! ## Configuration proxy route (from the config route's `GET`) -/

/-- The configuration status body returned by `/api/config`. -/
structure ConfigStatusBody where
  supabaseUrl : String
  hasSupabaseKey : Bool
  hasOpenaiKey : Bool
  isConfigured : Bool
  canSkipConfig : Bool
deriving DecidableEq

/-- What the config `GET` proxy returns to its caller. -/
inductive ConfigGetResult
  | data (status : Nat) (body : ConfigStatusBody)
  | errorBody (status : Nat) (message : String)
deriving DecidableEq

/-- The backend's reply to the config status request; `json` is the
outcome of `response.json()`, which may itself throw. -/
structure BackendConfigResponse where
  ok : Bool
  status : Nat
  json : FetchResult ConfigStatusBody

/-- The fixed fallback configuration body of the `catch` branch. -/
def configFallback : ConfigStatusBody :=
  { supabaseUrl := "", hasSupabaseKey := false, hasOpenaiKey := false,
    isConfigured := false, canSkipConfig := false }

/-- The `GET` handler of the config proxy route: fetch
`BACKEND_URL/api/config`; a non-OK reply becomes an error JSON with the
backend's status; an OK reply is forwarded with status 200; any thrown
error (the fetch rejecting or `response.json()` failing) is caught and
answered with status 200 and the fixed fallback body. -/
def configGET (fetched : FetchResult BackendConfigResponse) : ConfigGetResult :=
  match fetched with
  | .threw _ => .data 200 configFallback
  | .returned r =>
    if r.ok then
      match r.json with
      | .returned d => .data 200 d
      | .threw _ => .data 200 configFallback
    else
      .errorBody r.status "Failed to get configuration"

/-! ## Claim C10: the config GET proxy is total over backend failures -/

/-- **C10.** The configuration `GET` proxy is total over backend
failures: whenever the fetch to the backend throws, it returns HTTP 200
with the fixed fallback body `{supabaseUrl: "", hasSupabaseKey: false,
hasOpenaiKey: false, isConfigured: false, canSkipConfig: false}`
instead of propagating the exception. -/
theorem configGET_total_over_backend_failures (e : String) :
    configGET (.threw e) = .data 200 configFallback
    ∧ configFallback =
        { supabaseUrl := "", hasSupabaseKey := false, hasOpenaiKey := false,
          isConfigured := false, canSkipConfig := false } := by
  exact ⟨rfl, rfl⟩

/-! ## Claim C5: the streaming proxy forwards unchanged -/

/-- **C5.** For every POST to the streaming chat route with a JSON
body, the proxy forwards the request body to the backend unchanged, and
when the backend replies OK it returns the backend's response body
stream unchanged with content-type `text/event-stream`. -/
theorem chatStreamPOST_forwards_unchanged
    (v : JsonBody) (backend : JsonBody → FetchResult BackendStreamResponse)
    (r : BackendStreamResponse) (bs : List String)
    (hb : backend v = .returned r) (hok : r.ok = true)
    (hbody : r.body = some bs) :
    (chatStreamPOST (.ok v) backend).forwarded = some v
    ∧ streamChunks (chatStreamPOST (.ok v) backend).result = some bs
    ∧ streamContentType (chatStreamPOST (.ok v) backend).result =
        some "text/event-stream" := by
  simp [chatStreamPOST, hb, hok, hbody, streamChunks, streamContentType]

/-- Witness for C5 at a concrete request and backend reply. -/
theorem chatStreamPOST_forwards_unchanged_witness :
    (chatStreamPOST (.ok ⟨"req"⟩)
        (fun _ => .returned ⟨true, 200, none, none, some ["data: hi"]⟩)).forwarded
      = some ⟨"req"⟩
    ∧ streamChunks (chatStreamPOST (.ok ⟨"req"⟩)
        (fun _ => .returned ⟨true, 200, none, none, some ["data: hi"]⟩)).result
      = some ["data: hi"]
    ∧ streamContentType (chatStreamPOST (.ok ⟨"req"⟩)
        (fun _ => .returned ⟨true, 200, none, none, some ["data: hi"]⟩)).result
      = some "text/event-stream" :=
  chatStreamPOST_forwards_unchanged ⟨"req"⟩
    (fun _ => .returned ⟨true, 200, none, none, some ["data: hi"]⟩)
    ⟨true, 200, none, none, some ["data: hi"]⟩ ["data: hi"] rfl rfl rfl

/-! ## Claim C8: empty results still compose an explanation -/

/-- **C8.** For every `QueryResult` with `rowCount = 0`, `compose`
still produces a non-empty composed explanation ("No rows found.")
rather than an error. -/
theorem compose_nonempty_on_zero_rows
    (message : String) (intent : QueryIntent) (r : QueryResult)
    (oracle : ComposeOutcome) (h : r.rowCount = 0) :
    compose message intent r oracle = .ok ["No rows found."]
    ∧ explanationText (compose message intent r oracle) ≠ "" := by
  constructor
  · simp [compose, h]
  · simp [compose, h, explanationText]
    decide

/-! ## Shared helper lemmas -/

/-- A predicate that holds on no `response_chunk` filters a mapped
chunk list to nothing. -/
theorem filter_chunks_eq_nil (p : StreamEvent → Bool)
    (h : ∀ c, p (StreamEvent.response_chunk c) = false) (cs : List String) :
    (cs.map StreamEvent.response_chunk).filter p = [] := by
  induction cs with
  | nil => rfl
  | cons c cs ih => simp [h, ih]

/-- Shape facts about a successful event stream
`[status, status] ++ chunks ++ [final, done]`: exactly one `final`,
exactly one `done`, and no terminal event before the last position. -/
theorem successShape (a b : String) (cs : List String) (qr : QueryResult) :
    (([StreamEvent.status a, StreamEvent.status b]
        ++ cs.map StreamEvent.response_chunk
        ++ [StreamEvent.final qr, StreamEvent.done]).filter isFinalEv).length = 1
    ∧ (([StreamEvent.status a, StreamEvent.status b]
        ++ cs.map StreamEvent.response_chunk
        ++ [StreamEvent.final qr, StreamEvent.done]).filter isDoneEv).length = 1
    ∧ ∀ e ∈ ([StreamEvent.status a, StreamEvent.status b]
        ++ cs.map StreamEvent.response_chunk
        ++ [StreamEvent.final qr, StreamEvent.done]).dropLast,
        isTerminalEv e = false := by
  refine ⟨?_, ?_, ?_⟩
  · rw [List.filter_append, List.filter_append,
      filter_chunks_eq_nil isFinalEv (fun _ => rfl) cs]
    simp [isFinalEv]
  · rw [List.filter_append, List.filter_append,
      filter_chunks_eq_nil isDoneEv (fun _ => rfl) cs]
    simp [isDoneEv]
  · have hsplit :
        ([StreamEvent.status a, StreamEvent.status b]
          ++ cs.map StreamEvent.response_chunk
          ++ [StreamEvent.final qr, StreamEvent.done])
        = ([StreamEvent.status a, StreamEvent.status b]
            ++ cs.map StreamEvent.response_chunk
            ++ [StreamEvent.final qr]) ++ [StreamEvent.done] := by
      simp
    rw [hsplit, List.dropLast_concat]
    intro e he
    rcases List.mem_append.mp he with he' | he'
    · rcases List.mem_append.mp he' with hs | hc
      · simp only [List.mem_cons, List.not_mem_nil, or_false] at hs
        rcases hs with rfl | rfl <;> rfl
      · obtain ⟨c, _, rfl⟩ := List.mem_map.mp hc
        rfl
    · simp only [List.mem_singleton] at he'
      subst he'
      rfl

/-- `processLines` distributes over an append whose first part contains
no break event. -/
theorem processLines_append_nonbreak (s : ClientState)
    (xs ys : List StreamEvent) (h : ∀ x ∈ xs, isBreakEv x = false) :
    processLines s (xs ++ ys) = processLines (processLines s xs) ys := by
  induction xs generalizing s with
  | nil => rfl
  | cons x xs ih =>
    have hx : isBreakEv x = false := h x (List.mem_cons_self x xs)
    simp only [List.cons_append, processLines, hx, Bool.false_eq_true, if_false]
    exact ih _ (fun y hy => h y (List.mem_cons_of_mem _ hy))

/-- Processing a run of `response_chunk` events appends their contents,
in order, to the accumulated content. -/
theorem processChunks_accumulated (s : ClientState) (cs : List String) :
    (processLines s (cs.map StreamEvent.response_chunk)).accumulated
      = s.accumulated ++ concatAll cs := by
  induction cs generalizing s with
  | nil => simp [processLines, concatAll]
  | cons c cs ih =>
    simp [processLines, isBreakEv, applyEvent, ih, concatAll,
      String.append_assoc]

/-- Witness for C8 at a concrete empty query result. -/
theorem compose_nonempty_on_zero_rows_witness :
    compose "show users" ⟨"select", "users", [], none, none⟩
        ⟨[], 0, false⟩ (.ok []) = .ok ["No rows found."]
    ∧ explanationText (compose "show users" ⟨"select", "users", [], none, none⟩
        ⟨[], 0, false⟩ (.ok [])) ≠ "" :=
  compose_nonempty_on_zero_rows "show users"
    ⟨"select", "users", [], none, none⟩ ⟨[], 0, false⟩ (.ok []) rfl

/-! ## Claim C3: operations outside the allow-list are never executed -/

/-- **C3.** For every `QueryIntent` whose operation is outside the
allow-list `{list_entities, select, count, aggregate}`, `validate`
returns a `ValidationError` (`UnsupportedOperation`) and no Store
Client call executing the intent is made: the intent is never executed,
even partially (the pipeline run issues zero `execute` calls and ends
in a single `ValidationError` error event). -/
theorem validate_rejects_disallowed_operation
    (ctx : CredentialContext) (message : String) (o : Oracles)
    (schema : SchemaSnapshot) (intent : QueryIntent)
    (h1 : credentialsValid ctx = true)
    (h2 : o.fetchSchema = Except.ok schema)
    (h3 : o.interpret schema = Except.ok intent)
    (hop : intent.operation ∉ allowedOperations) :
    validate intent schema = .error .UnsupportedOperation
    ∧ (runPipeline ctx message o).executeCalls = 0
    ∧ (runPipeline ctx message o).events =
        [.status "Interpreting your question",
         .error "Unsupported or invalid query" "ValidationError"] := by
  have hval : validate intent schema = .error .UnsupportedOperation := by
    simp [validate, hop]
  refine ⟨hval, ?_, ?_⟩ <;> simp [runPipeline, h1, h2, h3, hval]

/-- Witness for C3: a `delete` intent is rejected unexecuted. -/
theorem validate_rejects_disallowed_operation_witness :
    validate ⟨"delete", "users", [], none, none⟩ [] =
      .error .UnsupportedOperation
    ∧ (runPipeline ⟨"https://x.supabase.co", "anon", "sk-key"⟩ "drop the users table"
        ⟨.ok [], fun _ => .ok ⟨"delete", "users", [], none, none⟩,
         fun _ => .error "unused", fun _ => .ok []⟩).executeCalls = 0
    ∧ (runPipeline ⟨"https://x.supabase.co", "anon", "sk-key"⟩ "drop the users table"
        ⟨.ok [], fun _ => .ok ⟨"delete", "users", [], none, none⟩,
         fun _ => .error "unused", fun _ => .ok []⟩).events =
        [.status "Interpreting your question",
         .error "Unsupported or invalid query" "ValidationError"] :=
  validate_rejects_disallowed_operation
    ⟨"https://x.supabase.co", "anon", "sk-key"⟩ "drop the users table"
    ⟨.ok [], fun _ => .ok ⟨"delete", "users", [], none, none⟩,
     fun _ => .error "unused", fun _ => .ok []⟩
    [] ⟨"delete", "users", [], none, none⟩ (by decide) rfl rfl (by decide)

/-! ## Claim C6: malformed credentials fail fast -/

/-- **C6.** For every request with a missing store key, the pipeline
emits an immediate error event with code `CredentialError` and attempts
no model call and no store call; and the client-side `validateConfig`
refuses to save a configuration whose store URL does not start with
`https://`, whose store key is blank, or whose model key does not start
with `sk-`. -/
theorem credential_error_fails_fast
    (ctx : CredentialContext) (message : String) (o : Oracles) (cfg : Config)
    (h1 : ctx.storeKey = "")
    (h2 : strStartsWith cfg.supabaseUrl "https://" = false
          ∨ cfg.supabaseKey.trim = ""
          ∨ strStartsWith cfg.openaiKey "sk-" = false) :
    (runPipeline ctx message o).events =
        [.error "Missing or malformed credentials" "CredentialError"]
    ∧ (runPipeline ctx message o).modelCalls = 0
    ∧ (runPipeline ctx message o).schemaFetches = 0
    ∧ (runPipeline ctx message o).executeCalls = 0
    ∧ handleSave cfg = none := by
  have hc : credentialsValid ctx = false := by
    simp [credentialsValid, h1]
  have hne : validateErrors cfg ≠ [] := by
    rcases h2 with h | h | h
    · by_cases hu : cfg.supabaseUrl.trim = "" <;>
        simp [validateErrors, hu, h]
    · simp [validateErrors, h]
    · by_cases ho : cfg.openaiKey.trim = "" <;>
        simp [validateErrors, ho, h]
  have hv : validateConfig cfg = false := by
    rw [validateConfig]
    exact List.isEmpty_eq_false.mpr hne
  refine ⟨?_, ?_, ?_, ?_, ?_⟩ <;> simp [runPipeline, hc, handleSave, hv]

/-- Witness for C6: an empty store key and an `http://` store URL. -/
theorem credential_error_fails_fast_witness :
    (runPipeline ⟨"https://x.supabase.co", "", "sk-key"⟩ "hello"
        ⟨.ok [], fun _ => .error "unused", fun _ => .error "unused",
         fun _ => .ok []⟩).events =
        [.error "Missing or malformed credentials" "CredentialError"]
    ∧ (runPipeline ⟨"https://x.supabase.co", "", "sk-key"⟩ "hello"
        ⟨.ok [], fun _ => .error "unused", fun _ => .error "unused",
         fun _ => .ok []⟩).modelCalls = 0
    ∧ (runPipeline ⟨"https://x.supabase.co", "", "sk-key"⟩ "hello"
        ⟨.ok [], fun _ => .error "unused", fun _ => .error "unused",
         fun _ => .ok []⟩).schemaFetches = 0
    ∧ (runPipeline ⟨"https://x.supabase.co", "", "sk-key"⟩ "hello"
        ⟨.ok [], fun _ => .error "unused", fun _ => .error "unused",
         fun _ => .ok []⟩).executeCalls = 0
    ∧ handleSave ⟨"http://x.supabase.co", "anon", "sk-key"⟩ = none :=
  credential_error_fails_fast
    ⟨"https://x.supabase.co", "", "sk-key"⟩ "hello"
    ⟨.ok [], fun _ => .error "unused", fun _ => .error "unused",
     fun _ => .ok []⟩
    ⟨"http://x.supabase.co", "anon", "sk-key"⟩
    rfl (Or.inl (by decide))

/-! ## Claim C7: list_entities uses at most one store call -/

/-- **C7.** For every user message classified `list_entities`, the
pipeline issues at most one store call (the schema retrieval) and no
`execute` call, yet still passes through the composing and streaming
stages: the client observes the uniform event sequence of statuses,
chunks, `final` and `done`. -/
theorem list_entities_single_store_call
    (ctx : CredentialContext) (message : String) (o : Oracles)
    (schema : SchemaSnapshot) (intent : QueryIntent) (cs : List String)
    (h1 : credentialsValid ctx = true)
    (h2 : o.fetchSchema = Except.ok schema)
    (h3 : o.interpret schema = Except.ok intent)
    (hop : intent.operation = "list_entities")
    (hcomp : compose message intent (schemaToResult schema)
        (o.composeChunks (schemaToResult schema)) = .ok cs) :
    (runPipeline ctx message o).schemaFetches
        + (runPipeline ctx message o).executeCalls ≤ 1
    ∧ (runPipeline ctx message o).executeCalls = 0
    ∧ (runPipeline ctx message o).events =
        [.status "Interpreting your question", .status "Querying database"]
        ++ cs.map .response_chunk
        ++ [.final (schemaToResult schema), .done] := by
  have hmem : ("list_entities" : String) ∈ allowedOperations := by decide
  have hval : validate intent schema =
      .ok { operation := intent.operation, entity := intent.entity,
            filters := [], projection := none, limit := defaultRowCap } := by
    simp [validate, hmem, hop]
  refine ⟨?_, ?_, ?_⟩ <;>
    simp [runPipeline, h1, h2, h3, hval, hop, streamTail, hcomp]

/-- Witness for C7: "What tables do I have?" against a two-table
schema. -/
theorem list_entities_single_store_call_witness :
    (runPipeline ⟨"https://x.supabase.co", "anon", "sk-key"⟩ "What tables do I have?"
        ⟨.ok [⟨"users", []⟩, ⟨"products", []⟩],
         fun _ => .ok ⟨"list_entities", "", [], none, none⟩,
         fun _ => .error "unused",
         fun _ => .ok ["You have two tables: users and products."]⟩).schemaFetches
      + (runPipeline ⟨"https://x.supabase.co", "anon", "sk-key"⟩ "What tables do I have?"
        ⟨.ok [⟨"users", []⟩, ⟨"products", []⟩],
         fun _ => .ok ⟨"list_entities", "", [], none, none⟩,
         fun _ => .error "unused",
         fun _ => .ok ["You have two tables: users and products."]⟩).executeCalls ≤ 1
    ∧ (runPipeline ⟨"https://x.supabase.co", "anon", "sk-key"⟩ "What tables do I have?"
        ⟨.ok [⟨"users", []⟩, ⟨"products", []⟩],
         fun _ => .ok ⟨"list_entities", "", [], none, none⟩,
         fun _ => .error "unused",
         fun _ => .ok ["You have two tables: users and products."]⟩).executeCalls = 0
    ∧ (runPipeline ⟨"https://x.supabase.co", "anon", "sk-key"⟩ "What tables do I have?"
        ⟨.ok [⟨"users", []⟩, ⟨"products", []⟩],
         fun _ => .ok ⟨"list_entities", "", [], none, none⟩,
         fun _ => .error "unused",
         fun _ => .ok ["You have two tables: users and products."]⟩).events =
        [.status "Interpreting your question", .status "Querying database"]
        ++ (["You have two tables: users and products."].map .response_chunk)
        ++ [.final (schemaToResult [⟨"users", []⟩, ⟨"products", []⟩]), .done] :=
  list_entities_single_store_call
    ⟨"https://x.supabase.co", "anon", "sk-key"⟩ "What tables do I have?"
    ⟨.ok [⟨"users", []⟩, ⟨"products", []⟩],
     fun _ => .ok ⟨"list_entities", "", [], none, none⟩,
     fun _ => .error "unused",
     fun _ => .ok ["You have two tables: users and products."]⟩
    [⟨"users", []⟩, ⟨"products", []⟩]
    ⟨"list_entities", "", [], none, none⟩
    ["You have two tables: users and products."]
    rfl rfl rfl rfl rfl

/-! ## Claim C1: streaming invariant for successful requests -/

/-- Neither statuses nor chunks break the client loop or terminate the
stream. -/
theorem statusChunks_nonbreak (a b : String) (cs : List String) :
    ∀ x ∈ ([StreamEvent.status a, StreamEvent.status b]
        ++ cs.map StreamEvent.response_chunk : List StreamEvent),
      isBreakEv x = false := by
  intro x hx
  rcases List.mem_append.mp hx with h | h
  · simp only [List.mem_cons, List.not_mem_nil, or_false] at h
    rcases h with rfl | rfl <;> rfl
  · obtain ⟨c, _, rfl⟩ := List.mem_map.mp h
    rfl

/-- On success the composer yields a complete chunk list, whatever the
oracle produced (the zero-row degenerate case included). -/
theorem compose_ok_of_oracle_ok (message : String) (intent : QueryIntent)
    (r : QueryResult) (cs0 : List String) :
    ∃ cs, compose message intent r (.ok cs0) = ComposeOutcome.ok cs := by
  by_cases hz : r.rowCount = 0
  · exact ⟨["No rows found."], by simp [compose, hz]⟩
  · exact ⟨cs0, by simp [compose, hz]⟩

/-- **C1.** For every successful streaming request, the emitted event
sequence contains zero or more `response_chunk` events, all strictly
before the `final` event, and ends with exactly one `final` event
followed by exactly one `done` event; no event other than the last one
is terminal, so after either terminal event nothing further is emitted
on the channel. -/
theorem streaming_invariant_success
    (ctx : CredentialContext) (message : String) (o : Oracles)
    (schema : SchemaSnapshot) (intent : QueryIntent) (plan : ExecutablePlan)
    (h1 : credentialsValid ctx = true)
    (h2 : o.fetchSchema = Except.ok schema)
    (h3 : o.interpret schema = Except.ok intent)
    (h4 : validate intent schema = Except.ok plan)
    (h5 : ∀ r, ∃ cs, o.composeChunks r = ComposeOutcome.ok cs)
    (h6 : intent.operation = "list_entities"
          ∨ ∃ r, o.execute plan = Except.ok r) :
    ∃ (pre : List StreamEvent) (cs : List String) (qr : QueryResult),
      (runPipeline ctx message o).events
        = pre ++ cs.map StreamEvent.response_chunk
          ++ [StreamEvent.final qr, StreamEvent.done]
      ∧ (∀ e ∈ pre, ∃ m, e = StreamEvent.status m)
      ∧ ((runPipeline ctx message o).events.filter isFinalEv).length = 1
      ∧ ((runPipeline ctx message o).events.filter isDoneEv).length = 1
      ∧ ∀ e ∈ (runPipeline ctx message o).events.dropLast,
          isTerminalEv e = false := by
  by_cases hop : intent.operation = "list_entities"
  · obtain ⟨cs0, hcs0⟩ := h5 (schemaToResult schema)
    obtain ⟨cs', hcomp⟩ :=
      compose_ok_of_oracle_ok message intent (schemaToResult schema) cs0
    rw [← hcs0] at hcomp
    have hev : (runPipeline ctx message o).events
        = [StreamEvent.status "Interpreting your question",
           StreamEvent.status "Querying database"]
          ++ cs'.map StreamEvent.response_chunk
          ++ [StreamEvent.final (schemaToResult schema), StreamEvent.done] := by
      simp [runPipeline, h1, h2, h3, h4, hop, hcomp, streamTail]
    refine ⟨[StreamEvent.status "Interpreting your question",
      StreamEvent.status "Querying database"], cs', schemaToResult schema,
      hev, ?_, ?_, ?_, ?_⟩
    · intro e he
      simp only [List.mem_cons, List.not_mem_nil, or_false] at he
      rcases he with rfl | rfl
      · exact ⟨_, rfl⟩
      · exact ⟨_, rfl⟩
    · rw [hev]; exact (successShape _ _ cs' _).1
    · rw [hev]; exact (successShape _ _ cs' _).2.1
    · rw [hev]; exact (successShape _ _ cs' _).2.2
  · rcases h6 with hop' | ⟨r, hr⟩
    · exact absurd hop' hop
    · obtain ⟨cs0, hcs0⟩ := h5 r
      obtain ⟨cs', hcomp⟩ := compose_ok_of_oracle_ok message intent r cs0
      rw [← hcs0] at hcomp
      have hev : (runPipeline ctx message o).events
          = [StreamEvent.status "Interpreting your question",
             StreamEvent.status "Querying database"]
            ++ cs'.map StreamEvent.response_chunk
            ++ [StreamEvent.final r, StreamEvent.done] := by
        simp [runPipeline, h1, h2, h3, h4, hop, hr, hcomp, streamTail]
      refine ⟨[StreamEvent.status "Interpreting your question",
        StreamEvent.status "Querying database"], cs', r, hev, ?_, ?_, ?_, ?_⟩
      · intro e he
        simp only [List.mem_cons, List.not_mem_nil, or_false] at he
        rcases he with rfl | rfl
        · exact ⟨_, rfl⟩
        · exact ⟨_, rfl⟩
      · rw [hev]; exact (successShape _ _ cs' _).1
      · rw [hev]; exact (successShape _ _ cs' _).2.1
      · rw [hev]; exact (successShape _ _ cs' _).2.2

/-- Witness for C1: a successful `select` request over one table. -/
theorem streaming_invariant_success_witness :
    ∃ (pre : List StreamEvent) (cs : List String) (qr : QueryResult),
      (runPipeline ⟨"https://x.supabase.co", "anon", "sk-key"⟩ "show all users"
        ⟨.ok [⟨"users", [⟨"id", "bigint"⟩]⟩],
         fun _ => .ok ⟨"select", "users", [], none, some 10⟩,
         fun _ => .ok ⟨[[("id", some "1")]], 1, false⟩,
         fun _ => .ok ["I found ", "1 user."]⟩).events
        = pre ++ cs.map StreamEvent.response_chunk
          ++ [StreamEvent.final qr, StreamEvent.done]
      ∧ (∀ e ∈ pre, ∃ m, e = StreamEvent.status m)
      ∧ (((runPipeline ⟨"https://x.supabase.co", "anon", "sk-key"⟩ "show all users"
        ⟨.ok [⟨"users", [⟨"id", "bigint"⟩]⟩],
         fun _ => .ok ⟨"select", "users", [], none, some 10⟩,
         fun _ => .ok ⟨[[("id", some "1")]], 1, false⟩,
         fun _ => .ok ["I found ", "1 user."]⟩).events.filter isFinalEv).length = 1)
      ∧ (((runPipeline ⟨"https://x.supabase.co", "anon", "sk-key"⟩ "show all users"
        ⟨.ok [⟨"users", [⟨"id", "bigint"⟩]⟩],
         fun _ => .ok ⟨"select", "users", [], none, some 10⟩,
         fun _ => .ok ⟨[[("id", some "1")]], 1, false⟩,
         fun _ => .ok ["I found ", "1 user."]⟩).events.filter isDoneEv).length = 1)
      ∧ ∀ e ∈ (runPipeline ⟨"https://x.supabase.co", "anon", "sk-key"⟩ "show all users"
        ⟨.ok [⟨"users", [⟨"id", "bigint"⟩]⟩],
         fun _ => .ok ⟨"select", "users", [], none, some 10⟩,
         fun _ => .ok ⟨[[("id", some "1")]], 1, false⟩,
         fun _ => .ok ["I found ", "1 user."]⟩).events.dropLast,
          isTerminalEv e = false :=
  streaming_invariant_success
    ⟨"https://x.supabase.co", "anon", "sk-key"⟩ "show all users"
    ⟨.ok [⟨"users", [⟨"id", "bigint"⟩]⟩],
     fun _ => .ok ⟨"select", "users", [], none, some 10⟩,
     fun _ => .ok ⟨[[("id", some "1")]], 1, false⟩,
     fun _ => .ok ["I found ", "1 user."]⟩
    [⟨"users", [⟨"id", "bigint"⟩]⟩]
    ⟨"select", "users", [], none, some 10⟩
    ⟨"select", "users", [], none, 10⟩
    rfl rfl rfl rfl
    (fun _ => ⟨["I found ", "1 user."], rfl⟩)
    (Or.inr ⟨⟨[[("id", some "1")]], 1, false⟩, rfl⟩)

/-! ## Claim C2: composer failure after partial output -/

/-- **C2 counterexample.** In the chat client of the repository, an
`error` event arriving after a `response_chunk` *replaces* the
displayed message content with the error text: after the events
`response_chunk "Here are yo"` then `error "Query failed"`, the
displayed content is `"Query failed"` although the delivered chunk
content was `"Here are yo"` — the already-delivered chunk content is
not preserved in the displayed message. -/
theorem chunk_content_replaced_on_error :
    (processLines clientStart
      [StreamEvent.response_chunk "Here are yo",
       StreamEvent.error "Query failed" "ComposerError"]).msg.content
      = "Query failed"
    ∧ (processLines clientStart
      [StreamEvent.response_chunk "Here are yo",
       StreamEvent.error "Query failed" "ComposerError"]).accumulated
      = "Here are yo"
    ∧ ("Query failed" : String) ≠ "Here are yo" := by
  refine ⟨by decide, by decide, by decide⟩

/-- **C2 (amended).** If the composer fails after `response_chunk`
events have already been streamed, exactly one terminal `error` event
carrying a user-safe message is emitted and the already-emitted
`response_chunk` events remain in the stream, in order, before it (the
client's accumulated content still equals their concatenation); the
chat client, however, replaces the *displayed* message content with the
error message rather than keeping the chunk content. -/
theorem composer_failure_emits_single_error
    (ctx : CredentialContext) (message : String) (o : Oracles)
    (schema : SchemaSnapshot) (intent : QueryIntent) (plan : ExecutablePlan)
    (r : QueryResult) (cs : List String) (m : String)
    (h1 : credentialsValid ctx = true)
    (h2 : o.fetchSchema = Except.ok schema)
    (h3 : o.interpret schema = Except.ok intent)
    (h4 : validate intent schema = Except.ok plan)
    (h5 : intent.operation ≠ "list_entities")
    (h6 : o.execute plan = Except.ok r)
    (h7 : r.rowCount ≠ 0)
    (h8 : o.composeChunks r = ComposeOutcome.failAfter cs m)
    (h9 : m ≠ "") :
    (runPipeline ctx message o).events
      = [StreamEvent.status "Interpreting your question",
         StreamEvent.status "Querying database"]
        ++ cs.map StreamEvent.response_chunk
        ++ [StreamEvent.error m "ComposerError"]
    ∧ ((runPipeline ctx message o).events.filter isErrorEv).length = 1
    ∧ (∀ e ∈ (runPipeline ctx message o).events.dropLast,
        isTerminalEv e = false)
    ∧ (processLines clientStart (runPipeline ctx message o).events).accumulated
        = concatAll cs
    ∧ (processLines clientStart (runPipeline ctx message o).events).msg.content
        = m := by
  have hcomp : compose message intent r (o.composeChunks r)
      = ComposeOutcome.failAfter cs m := by
    simp [compose, h7, h8]
  have hev : (runPipeline ctx message o).events
      = [StreamEvent.status "Interpreting your question",
         StreamEvent.status "Querying database"]
        ++ cs.map StreamEvent.response_chunk
        ++ [StreamEvent.error m "ComposerError"] := by
    simp [runPipeline, h1, h2, h3, h4, h5, h6, hcomp, streamTail]
  have hsplit :
      ([StreamEvent.status "Interpreting your question",
        StreamEvent.status "Querying database"]
        ++ cs.map StreamEvent.response_chunk
        ++ [StreamEvent.error m "ComposerError"] : List StreamEvent)
      = ([StreamEvent.status "Interpreting your question",
          StreamEvent.status "Querying database"]
          ++ cs.map StreamEvent.response_chunk)
        ++ [StreamEvent.error m "ComposerError"] := by
    simp
  have hproc : processLines clientStart (runPipeline ctx message o).events
      = applyEvent
          (processLines clientStart
            ([StreamEvent.status "Interpreting your question",
              StreamEvent.status "Querying database"]
              ++ cs.map StreamEvent.response_chunk))
          (StreamEvent.error m "ComposerError") := by
    rw [hev, hsplit, processLines_append_nonbreak _ _ _
      (statusChunks_nonbreak _ _ cs)]
    rfl
  refine ⟨hev, ?_, ?_, ?_, ?_⟩
  · rw [hev, List.filter_append, List.filter_append,
      filter_chunks_eq_nil isErrorEv (fun _ => rfl) cs]
    simp [isErrorEv]
  · rw [hev, hsplit, List.dropLast_concat]
    intro e he
    rcases List.mem_append.mp he with h | h
    · simp only [List.mem_cons, List.not_mem_nil, or_false] at h
      rcases h with rfl | rfl <;> rfl
    · obtain ⟨c, _, rfl⟩ := List.mem_map.mp h
      rfl
  · have hnb2 : ∀ x ∈ ([StreamEvent.status "Interpreting your question",
        StreamEvent.status "Querying database"] : List StreamEvent),
        isBreakEv x = false := by
      intro x hx
      simp only [List.mem_cons, List.not_mem_nil, or_false] at hx
      rcases hx with rfl | rfl <;> rfl
    rw [hproc, processLines_append_nonbreak _ _ _ hnb2]
    simp only [applyEvent]
    rw [processChunks_accumulated]
    simp [processLines, applyEvent, isBreakEv, clientStart]
  · rw [hproc]
    simp [applyEvent, errorDisplay, h9]

/-- Witness for C2 (amended): a composer failure after one chunk. -/
theorem composer_failure_emits_single_error_witness :
    (runPipeline ⟨"https://x.supabase.co", "anon", "sk-key"⟩ "show all users"
      ⟨.ok [⟨"users", [⟨"id", "bigint"⟩]⟩],
       fun _ => .ok ⟨"select", "users", [], none, none⟩,
       fun _ => .ok ⟨[[("id", some "1")]], 1, false⟩,
       fun _ => .failAfter ["Here are yo"] "Query failed"⟩).events
      = [StreamEvent.status "Interpreting your question",
         StreamEvent.status "Querying database"]
        ++ (["Here are yo"].map StreamEvent.response_chunk)
        ++ [StreamEvent.error "Query failed" "ComposerError"]
    ∧ (((runPipeline ⟨"https://x.supabase.co", "anon", "sk-key"⟩ "show all users"
      ⟨.ok [⟨"users", [⟨"id", "bigint"⟩]⟩],
       fun _ => .ok ⟨"select", "users", [], none, none⟩,
       fun _ => .ok ⟨[[("id", some "1")]], 1, false⟩,
       fun _ => .failAfter ["Here are yo"] "Query failed"⟩).events.filter
        isErrorEv).length = 1)
    ∧ (∀ e ∈ (runPipeline ⟨"https://x.supabase.co", "anon", "sk-key"⟩ "show all users"
      ⟨.ok [⟨"users", [⟨"id", "bigint"⟩]⟩],
       fun _ => .ok ⟨"select", "users", [], none, none⟩,
       fun _ => .ok ⟨[[("id", some "1")]], 1, false⟩,
       fun _ => .failAfter ["Here are yo"] "Query failed"⟩).events.dropLast,
        isTerminalEv e = false)
    ∧ (processLines clientStart
        (runPipeline ⟨"https://x.supabase.co", "anon", "sk-key"⟩ "show all users"
      ⟨.ok [⟨"users", [⟨"id", "bigint"⟩]⟩],
       fun _ => .ok ⟨"select", "users", [], none, none⟩,
       fun _ => .ok ⟨[[("id", some "1")]], 1, false⟩,
       fun _ => .failAfter ["Here are yo"] "Query failed"⟩).events).accumulated
        = concatAll ["Here are yo"]
    ∧ (processLines clientStart
        (runPipeline ⟨"https://x.supabase.co", "anon", "sk-key"⟩ "show all users"
      ⟨.ok [⟨"users", [⟨"id", "bigint"⟩]⟩],
       fun _ => .ok ⟨"select", "users", [], none, none⟩,
       fun _ => .ok ⟨[[("id", some "1")]], 1, false⟩,
       fun _ => .failAfter ["Here are yo"] "Query failed"⟩).events).msg.content
        = "Query failed" :=
  composer_failure_emits_single_error
    ⟨"https://x.supabase.co", "anon", "sk-key"⟩ "show all users"
    ⟨.ok [⟨"users", [⟨"id", "bigint"⟩]⟩],
     fun _ => .ok ⟨"select", "users", [], none, none⟩,
     fun _ => .ok ⟨[[("id", some "1")]], 1, false⟩,
     fun _ => .failAfter ["Here are yo"] "Query failed"⟩
    [⟨"users", [⟨"id", "bigint"⟩]⟩]
    ⟨"select", "users", [], none, none⟩
    ⟨"select", "users", [], none, 100⟩
    ⟨[[("id", some "1")]], 1, false⟩
    ["Here are yo"] "Query failed"
    rfl rfl rfl rfl (by decide) rfl (by decide) rfl (by decide)

/-! ## Claim C4: chunk accumulation is append-only and ordered -/

/-- **C4.** `response_chunk` delivery is append-only and
order-preserving: after each `response_chunk` event the accumulated
explanation text equals the previous accumulated text concatenated with
that event's `content` field (and is what the client displays), so
after `n` chunks it equals the concatenation of all `n` chunk contents
in arrival order. -/
theorem response_chunks_append_only (s : ClientState) (c : String)
    (cs : List String) :
    (applyEvent s (.response_chunk c)).accumulated = s.accumulated ++ c
    ∧ (applyEvent s (.response_chunk c)).msg.content = s.accumulated ++ c
    ∧ (processLines s (cs.map StreamEvent.response_chunk)).accumulated
        = s.accumulated ++ concatAll cs
    ∧ (processLines clientStart (cs.map StreamEvent.response_chunk)).accumulated
        = concatAll cs :=
  ⟨rfl, rfl, processChunks_accumulated s cs,
    (processChunks_accumulated clientStart cs).trans (String.empty_append _)⟩

/-! ## Claim C9: the chat UI sends exactly the sanitized input -/

/-- `jsTrim` yields the empty list exactly when every character is
whitespace. -/
theorem jsTrim_eq_nil_iff (l : List Char) :
    jsTrim l = [] ↔ ∀ c ∈ l, c.isWhitespace = true := by
  unfold jsTrim
  rw [List.reverse_eq_nil_iff, List.dropWhile_eq_nil_iff]
  constructor
  · intro h c hc
    have hsplit := List.takeWhile_append_dropWhile
      (p := Char.isWhitespace) (l := l)
    rw [← hsplit] at hc
    rcases List.mem_append.mp hc with h1 | h2
    · exact List.mem_takeWhile_imp h1
    · exact h c (List.mem_reverse.mpr h2)
  · intro h x hx
    exact h x (List.dropWhile_subset _ (List.mem_reverse.mp hx))

/-- **C9.** For every user input, the message the chat UI sends to the
streaming endpoint equals that input with all occurrences of the
characters `<`, `>`, `\x7b`, `\x7d` removed, then truncated to at most
500 characters, then whitespace-trimmed; if that result is empty, no
request is sent at all (this also covers the early return on an
all-whitespace input box). -/
theorem sent_message_is_sanitized_input (input : List Char) :
    sentMessage false input
      = if claimSanitize input = [] then none
        else some (claimSanitize input) := by
  have hsan : sanitizeInput input = claimSanitize input := by
    have hfil : input.filter (fun c => !bannedChar c)
        = input.filter (fun c =>
            ¬(c = '<' ∨ c = '>' ∨ c = Char.ofNat 123 ∨ c = Char.ofNat 125)) :=
      List.filter_congr (fun c _ => by
        simp [bannedChar, decide_not, Bool.not_or, Bool.and_assoc])
    unfold sanitizeInput claimSanitize
    rw [hfil]
  by_cases h : jsTrim input = []
  · have hall : ∀ c ∈ input, c.isWhitespace = true :=
      (jsTrim_eq_nil_iff input).mp h
    have hm : claimSanitize input = [] := by
      unfold claimSanitize
      refine (jsTrim_eq_nil_iff _).mpr ?_
      intro c hc
      have hc1 := List.take_subset _ _ hc
      exact hall c (List.mem_filter.mp hc1).1
    simp [sentMessage, h, hm]
  · simp [sentMessage, h, hsan]

end SupabaseChatbot
